import Mathlib

/-!
Verification of the `lizard_fewsjdbc` hierarchical resource resolver
(`lizard_fewsjdbc/models.py`), shallowly embedded in Lean 4.

The embedding follows the source closely:

* `JdbcSource.query` models `JdbcSource.query`: ping the XML-RPC proxy
  (a `socket.gaierror` is re-raised as `FewsJdbcNotAvailableError`),
  lazily register the tag when `Config.get` fails with an `ExpatError`,
  execute the statement, and turn an integer result into
  `FewsJdbcQueryError(code, statement)`.
* The resolver operations (`get_filter_tree`, `get_named_parameters`,
  `get_parameter_name`, `get_locations`, `get_timeseries`, `get_unit`)
  are modelled as pure functions of the source record, the remote
  server's behaviour, and the Django cache state; each returns its
  result, the new cache state, and the ordered list of remote
  operations it issued.
* Python's dynamically typed values (strings, ints, `None`, parsed
  datetimes and exception objects stored in result dicts) are
  collected in the `Val` type; dicts become association lists, looked
  up at their first matching key.
* Python exceptions become `Except` error values: `socket.gaierror`
  is `QueryError.notAvailable`, `FewsJdbcQueryError` is
  `QueryError.queryError`, the `IndexError` raised by `result[0][0]`
  on an empty result set is `LookupError.notFound`, and a
  `iso8601.ParseError` is `LookupError.malformedTimestamp`, matching
  the spec's error taxonomy.

The helpers `unique_list`, `named_list` and `tree_from_list` come from
the external `lizard_map.operations` module and `iso8601.parse_date`
from the external `iso8601` package; they are not part of this
repository and are modelled from the spec (see their doc comments).
-/

/-- A (parsed) calendar date-time, as produced by the timestamp parsing
of `get_timeseries`. -/
structure DateTimeV where
  year : Nat
  month : Nat
  day : Nat
  hour : Nat
  minute : Nat
  second : Nat
deriving DecidableEq

/-- Errors raised by `JdbcSource.query`:
`notAvailable` models `FewsJdbcNotAvailableError` (wrapping a
`socket.gaierror` from the liveness ping), `queryError` models
`FewsJdbcQueryError(value, query)` (an integer sentinel returned by
`Query.execute`), and `network` models an uncaught exception escaping
from `Config.get` (only `ExpatError` is caught there). -/
inductive QueryError where
  | notAvailable : String → QueryError
  | queryError : Int → String → QueryError
  | network : String → QueryError
deriving DecidableEq

/-- A dynamically typed Python value as it appears in result rows and
dicts: a string, an int, `None`, a parsed date-time, or an exception
object (the degraded filter-tree dicts store the caught exception under
their `error` / `error code` key). -/
inductive Val where
  | str : String → Val
  | int : Int → Val
  | null : Val
  | date : DateTimeV → Val
  | errv : QueryError → Val
deriving DecidableEq

/-- A raw tabular result: a list of rows, each a list of scalar values. -/
abbrev Table := List (List Val)

/-- A named row (a Python dict), as an association list; lookups take
the first matching key. -/
abbrev NamedRow := List (String × Val)

/-- Outcome of the XML-RPC `Ping.isAlive` liveness probe. -/
inductive PingResult where
  | alive : PingResult
  | gaierror : String → PingResult
deriving DecidableEq

/-- Outcome of the XML-RPC `Config.get` call: a value, an `ExpatError`
(malformed/absent configuration, the only exception the source
catches), or some other network-level exception (uncaught). -/
inductive ConfigGetResult where
  | ok : Val → ConfigGetResult
  | parseError : ConfigGetResult
  | networkError : String → ConfigGetResult
deriving DecidableEq

/-- Outcome of the XML-RPC `Query.execute` call: either an integer
sentinel error code or a tabular result. -/
inductive ExecResult where
  | intResult : Int → ExecResult
  | table : Table → ExecResult

/-- The behaviour of the remote Jdbc2Ei server reached through
`xmlrpclib.ServerProxy(jdbc_url)`.  `Config.put` is modelled as always
succeeding (the source has no handling for its failure). -/
structure Remote where
  ping : PingResult
  configGet : String → ConfigGetResult
  execute : String → List String → ExecResult

/-- One remote XML-RPC operation, recorded in issue order. -/
inductive RemoteOp where
  | ping : RemoteOp
  | configGet : String → RemoteOp
  | configPut : String → String → RemoteOp
  | execute : String → List String → RemoteOp
deriving DecidableEq

/-- The `JdbcSource` Django model.  `filter_tree_root` is `none` when
the field is blank or NULL (both falsy in the source's
`if self.filter_tree_root:` test); `customfilter` is the already
evaluated pythonic list of dicts stored in the text field (the
source's `_customfilter` property applies `eval` to it). -/
structure JdbcSource where
  slug : String
  name : String
  jdbc_url : String
  jdbc_tag_name : String
  connector_string : String
  filter_tree_root : Option String
  usecustomfilter : Bool
  customfilter : List NamedRow

/-- `JDBC_NONE = -999`, the well-known "top level" sentinel. -/
def JDBC_NONE : Int := -999

/-- `FILTER_CACHE_KEY = 'lizard_fewsjdbc.models.filter_cache_key'`. -/
def FILTER_CACHE_KEY : String := "lizard_fewsjdbc.models.filter_cache_key"

/-- `PARAMETER_NAME_CACHE_KEY = 'lizard_fewsjdbc.models.parameter_name_cache_key'`. -/
def PARAMETER_NAME_CACHE_KEY : String := "lizard_fewsjdbc.models.parameter_name_cache_key"

/-- `LOCATION_CACHE_KEY = 'lizard_fewsjdbc.layers.location_cache_key'`. -/
def LOCATION_CACHE_KEY : String := "lizard_fewsjdbc.layers.location_cache_key"

/-- `JdbcSource.query(q)`: ping the server (re-raising `gaierror` as
`FewsJdbcNotAvailableError`), lazily register the connector string
under the tag when `Config.get` fails with an `ExpatError`, execute the
statement scoped to the tag, and raise `FewsJdbcQueryError(result, q)`
when the result is an int.  Returns the query outcome together with the
ordered list of remote operations issued. -/
def JdbcSource.query (src : JdbcSource) (remote : Remote) (q : String) :
    Except QueryError Table × List RemoteOp :=
  match remote.ping with
  | .gaierror m => (.error (.notAvailable m), [.ping])
  | .alive =>
    match remote.configGet src.jdbc_tag_name with
    | .networkError m =>
      (.error (.network m), [.ping, .configGet src.jdbc_tag_name])
    | .ok _ =>
      (match remote.execute q [src.jdbc_tag_name] with
       | .intResult n => .error (.queryError n q)
       | .table t => .ok t,
       [.ping, .configGet src.jdbc_tag_name, .execute q [src.jdbc_tag_name]])
    | .parseError =>
      (match remote.execute q [src.jdbc_tag_name] with
       | .intResult n => .error (.queryError n q)
       | .table t => .ok t,
       [.ping, .configGet src.jdbc_tag_name,
        .configPut src.jdbc_tag_name src.connector_string,
        .execute q [src.jdbc_tag_name]])

/-- Errors surfaced by the resolver operations: a propagated query
error, plus the spec's `SchemaMismatch`, `NotFound` (the `IndexError`
raised by `result[0][0]` on an empty result), `MalformedTimestamp`
(an `iso8601.ParseError`, carrying the unparseable string) and a
generic Python-level type error (`KeyError`/`AttributeError` on a row
whose `time` cell is not a string). -/
inductive LookupError where
  | remote : QueryError → LookupError
  | schemaMismatch : LookupError
  | notFound : LookupError
  | malformedTimestamp : String → LookupError
  | typeError : LookupError
deriving DecidableEq

/-- A node of the filter tree.  Tree nodes are Python dicts; `fields`
holds their scalar entries and `children` models the `children` key
(`Option.none` when the key is absent, as in the degraded single-node
results returned on remote failure). -/
inductive TreeNode where
  | mk : List (String × Val) → Option (List TreeNode) → TreeNode

/-- The scalar entries of a tree node dict. -/
def TreeNode.fields : TreeNode → List (String × Val)
  | .mk f _ => f

/-- The `children` key of a tree node dict (`Option.none` = absent). -/
def TreeNode.children : TreeNode → Option (List TreeNode)
  | .mk _ c => c

/-- A value stored in the Django cache: a filter tree
(`get_filter_tree`), a list of named rows (`get_named_parameters`,
`get_locations`) or a single scalar (`get_parameter_name`). -/
inductive CacheVal where
  | tree : List TreeNode → CacheVal
  | rows : List NamedRow → CacheVal
  | val : Val → CacheVal

/-- The Django cache state: entries `(key, value, ttl)`, newest first;
`ttl = Option.none` records a `cache.set` call without an explicit
timeout (the `get_locations` case). -/
abbrev Cache := List (String × CacheVal × Option Nat)

/-- `cache.get(key)`: the value of the newest entry for `key`. -/
def cacheGet (c : Cache) (k : String) : Option CacheVal :=
  match c.find? (fun e => e.1 == k) with
  | some e => some e.2.1
  | Option.none => Option.none

/-- `cache.set(key, value, ttl)`: prepend the new entry (it shadows any
older entry with the same key). -/
def cacheSet (c : Cache) (k : String) (v : CacheVal) (ttl : Option Nat) : Cache :=
  (k, v, ttl) :: c

/-- Modelled from the spec: `lizard_map.operations.unique_list` is not
part of this repository; per spec section 4.1 (`Dedup`) it removes rows
that are exact duplicates of an earlier row, preserving
first-occurrence order.  `seen` accumulates the rows already kept. -/
def uniqueAux (seen : List (List Val)) : List (List Val) → List (List Val)
  | [] => []
  | r :: rs => if r ∈ seen then uniqueAux seen rs else r :: uniqueAux (r :: seen) rs

/-- Modelled from the spec: `lizard_map.operations.unique_list`
(spec section 4.1, `Dedup`). -/
def unique_list (rows : List (List Val)) : List (List Val) :=
  uniqueAux [] rows

/-- Modelled from the spec: `lizard_map.operations.named_list` is not
part of this repository; per spec section 4.1 (`Named`) it zips each
row positionally with the column names and fails with `SchemaMismatch`
if any row's arity differs from the number of column names. -/
def named_list (rows : List (List Val)) (cols : List String) :
    Except LookupError (List NamedRow) :=
  if rows.all (fun r => r.length == cols.length)
  then .ok (rows.map (fun r => cols.zip r))
  else .error .schemaMismatch

/-- First value stored under key `k` in a named row (Python `row[k]`;
`Val.null` for an absent key, which the source never relies on). -/
def lookupVal (r : NamedRow) (k : String) : Val :=
  match r.find? (fun p => p.1 == k) with
  | some p => p.2
  | Option.none => Val.null

/-- Python `row[k] = v` on a dict modelled as an association list:
replace the entry if the key is present, else append it. -/
def setField (r : NamedRow) (k : String) (v : Val) : NamedRow :=
  if r.any (fun p => p.1 == k)
  then r.map (fun p => if p.1 == k then (k, v) else p)
  else r ++ [(k, v)]

/-- Modelled from the spec: `lizard_map.operations.tree_from_list` is
not part of this repository; per spec section 4.2 (`BuildTree`) the
records whose parent field equals `rootParent` start the top-level
sequence, each node's children are the records whose parent field
equals its id (depth-first, keeping input order), and records whose
parent id never resolves are dropped.  The structural `fuel` bounds the
recursion depth; parent chains of an acyclic record list are shorter
than the list, so `records.length + 1` fuel is never exhausted. -/
def tree_from_list (fuel : Nat) (records : List NamedRow)
    (id_field parent_field : String) (rootParent : Val) : List TreeNode :=
  match fuel with
  | 0 => []
  | fuel' + 1 =>
    (records.filter (fun r => lookupVal r parent_field == rootParent)).map
      (fun r => TreeNode.mk r
        (some (tree_from_list fuel' records id_field parent_field (lookupVal r id_field))))

/-- Python `'%s' % v` for the values that reach string interpolation
(the filter id inside the per-filter url). -/
def pyStr : Val → String
  | .str s => s
  | .int n => toString n
  | .null => "None"
  | .date _ => "datetime"
  | .errv _ => "error"

/-- The cache key of `get_filter_tree`:
`FILTER_CACHE_KEY + '::' + self.slug`. -/
def filter_tree_key (src : JdbcSource) : String :=
  FILTER_CACHE_KEY ++ "::" ++ src.slug

/-- The cache key of `get_named_parameters`:
`'%s::%s::%s' % (FILTER_CACHE_KEY, self.slug, str(filter_id))`. -/
def parameters_key (src : JdbcSource) (filter_id : String) : String :=
  FILTER_CACHE_KEY ++ "::" ++ src.slug ++ "::" ++ filter_id

/-- The cache key of `get_parameter_name`:
`'%s::%s::%s' % (PARAMETER_NAME_CACHE_KEY, self.slug, str(parameter_id))`. -/
def parameter_name_key (src : JdbcSource) (parameter_id : String) : String :=
  PARAMETER_NAME_CACHE_KEY ++ "::" ++ src.slug ++ "::" ++ parameter_id

/-- The cache key of `get_locations`:
`'%s::%s::%s' % (LOCATION_CACHE_KEY, filter_id, parameter_id)` — note
that, unlike the other keys, it does not contain the source slug. -/
def location_key (filter_id parameter_id : String) : String :=
  LOCATION_CACHE_KEY ++ "::" ++ filter_id ++ "::" ++ parameter_id

/-- The statement issued by `get_filter_tree`:
`"select id, name, parentid from filters;"`. -/
def filters_stmt : String := "select id, name, parentid from filters;"

/-- The statement issued by `get_named_parameters`. -/
def parameters_stmt (filter_id : String) : String :=
  "select name, parameterid, parameter from filters where id=\x27" ++ filter_id ++ "\x27"

/-- The statement issued by `get_parameter_name` (the double space
after `from` is in the source). -/
def parameter_name_stmt (parameter_id : String) : String :=
  "select name from  parameters where id=\x27" ++ parameter_id ++ "\x27"

/-- The statement issued by `get_locations`. -/
def locations_stmt (filter_id parameter_id : String) : String :=
  "select longitude, latitude, location, locationid from filters where id=\x27"
    ++ filter_id ++ "\x27 and parameterid=\x27" ++ parameter_id ++ "\x27"

/-- The statement issued by `get_unit`. -/
def unit_stmt (parameter_id : String) : String :=
  "select unit from parameters where id=\x27" ++ parameter_id ++ "\x27"

/-- Zero-pad a number to two digits (`strftime` `%m`/`%d`/`%H`/`%M`/`%S`). -/
def pad2 (n : Nat) : String :=
  if n < 10 then "0" ++ toString n else toString n

/-- Zero-pad a number to four digits (`strftime` `%Y`). -/
def pad4 (n : Nat) : String :=
  if n < 10 then "000" ++ toString n
  else if n < 100 then "00" ++ toString n
  else if n < 1000 then "0" ++ toString n
  else toString n

/-- `date.strftime(JDBC_DATE_FORMAT)` with
`JDBC_DATE_FORMAT = '%Y-%m-%d %H:%M:%S'`. -/
def strftime_jdbc (d : DateTimeV) : String :=
  pad4 d.year ++ "-" ++ pad2 d.month ++ "-" ++ pad2 d.day ++ " "
    ++ pad2 d.hour ++ ":" ++ pad2 d.minute ++ ":" ++ pad2 d.second

/-- The statement issued by `get_timeseries`. -/
def timeseries_stmt (filter_id location_id parameter_id : String)
    (start_date end_date : DateTimeV) : String :=
  "select time, value, flag, detection, comment from extimeseries where filterid=\x27"
    ++ filter_id ++ "\x27 and locationid=\x27" ++ location_id
    ++ "\x27 and parameterid=\x27" ++ parameter_id ++ "\x27 and time between \x27"
    ++ strftime_jdbc start_date ++ "\x27 and \x27" ++ strftime_jdbc end_date ++ "\x27"

/-- The numeric value of a list of decimal digit characters. -/
def digitsToNat (cs : List Char) : Nat :=
  cs.foldl (fun n c => n * 10 + (c.toNat - 48)) 0

/-- An `HH:MM:SS` time tail: exactly two digits, a colon, two digits, a
colon, two digits. -/
def parse_time_tail : List Char → Option (Nat × Nat × Nat)
  | [h1, h2, c1, m1, m2, c2, s1, s2] =>
    if h1.isDigit && h2.isDigit && c1 == ':' && m1.isDigit && m2.isDigit
        && c2 == ':' && s1.isDigit && s2.isDigit
    then some (digitsToNat [h1, h2], digitsToNat [m1, m2], digitsToNat [s1, s2])
    else Option.none
  | _ => Option.none

/-- Modelled from the spec: `iso8601.parse_date` is an external
package, not part of this repository; per spec sections 4.4 and 7 it
parses an ISO 8601 calendar date-time and fails (`MalformedTimestamp`)
if the tail does not parse.  The model accepts `YYYY-MM-DD`, optionally
followed by a one-character separator and a colon-separated `HH:MM:SS`
time (the forms relevant to this code path; fractions and timezone
designators are not exercised by it).  The error carries the offending
string. -/
def parse_date (s : String) : Except String DateTimeV :=
  match s.data with
  | y1 :: y2 :: y3 :: y4 :: c1 :: mo1 :: mo2 :: c2 :: d1 :: d2 :: rest =>
    if y1.isDigit && y2.isDigit && y3.isDigit && y4.isDigit && c1 == '-'
        && mo1.isDigit && mo2.isDigit && c2 == '-' && d1.isDigit && d2.isDigit then
      match rest with
      | [] => .ok ⟨digitsToNat [y1, y2, y3, y4], digitsToNat [mo1, mo2],
                   digitsToNat [d1, d2], 0, 0, 0⟩
      | _ :: timechars =>
        match parse_time_tail timechars with
        | some (h, mi, se) =>
          .ok ⟨digitsToNat [y1, y2, y3, y4], digitsToNat [mo1, mo2],
               digitsToNat [d1, d2], h, mi, se⟩
        | Option.none => .error s
    else .error s
  | _ => .error s

/-- The timestamp re-assembly of `get_timeseries`:
`'%s-%s-%s' % (date_time[0:4], date_time[4:6], date_time[6:])`. -/
def adjust_date_time (s : String) : String :=
  s.take 4 ++ "-" ++ (s.drop 4).take 2 ++ "-" ++ s.drop 6

/-- The per-filter url added by `get_filter_tree`:
`reverse(url_name, kwargs={'jdbc_source_slug': self.slug})` followed by
`'?filter_id=%s' % named_filter['id']`.  Django's `reverse` is an
external collaborator and is passed in as the function `rev`. -/
def set_url (rev : String → String → String) (url_name slug : String)
    (r : NamedRow) : NamedRow :=
  setField r "url" (.str (rev url_name slug ++ "?filter_id=" ++ pyStr (lookupVal r "id")))

/-- The degraded single-node results `get_filter_tree` returns when the
remote query fails: `[{'name': 'Jdbc2Ei server not available.',
'error': e}]` for a `FewsJdbcNotAvailableError` and `[{'name': 'Jdbc
data source not available.', 'error code': e}]` for a
`FewsJdbcQueryError`; neither dict has a `children` key. -/
def degraded_node : QueryError → TreeNode
  | .notAvailable m =>
    .mk [("name", .str "Jdbc2Ei server not available."),
         ("error", .errv (.notAvailable m))] Option.none
  | e =>
    .mk [("name", .str "Jdbc data source not available."),
         ("error code", .errv e)] Option.none

/-- `JdbcSource.get_filter_tree(url_name, ignore_cache)`: on a cache
hit return the cached value; otherwise build the named filter list —
from the evaluated `customfilter` with `root_parent = None` when
`usecustomfilter` is set, else from the remote `filters` query
(deduplicated and named), degrading to a single-node result on
`FewsJdbcNotAvailableError` / `FewsJdbcQueryError`, with `root_parent`
the `filter_tree_root` override or `JDBC_NONE` — then add a url per
filter, build the tree and cache it for 8 hours.  Returns the result,
the new cache state and the remote operations issued. -/
def JdbcSource.get_filter_tree (src : JdbcSource) (remote : Remote)
    (rev : String → String → String) (url_name : String) (ignore_cache : Bool)
    (c : Cache) : Except LookupError CacheVal × Cache × List RemoteOp :=
  match cacheGet c (filter_tree_key src) with
  | some v => (.ok v, c, [])
  | Option.none =>
    if src.usecustomfilter then
      let named_filters := src.customfilter.map (set_url rev url_name src.slug)
      let t := tree_from_list (named_filters.length + 1) named_filters
        "id" "parentid" Val.null
      (.ok (.tree t), cacheSet c (filter_tree_key src) (.tree t) (some (8 * 60 * 60)), [])
    else
      let ops := (src.query remote filters_stmt).2
      match (src.query remote filters_stmt).1 with
      | .error (.notAvailable m) =>
        (.ok (.tree [degraded_node (.notAvailable m)]), c, ops)
      | .error (.queryError n qq) =>
        (.ok (.tree [degraded_node (.queryError n qq)]), c, ops)
      | .error (.network m) => (.error (.remote (.network m)), c, ops)
      | .ok filters =>
        match named_list (unique_list filters) ["id", "name", "parentid"] with
        | .error e => (.error e, c, ops)
        | .ok named_filters =>
          let root_parent := match src.filter_tree_root with
            | some r => Val.str r
            | Option.none => Val.int JDBC_NONE
          let withUrl := named_filters.map (set_url rev url_name src.slug)
          let t := tree_from_list (withUrl.length + 1) withUrl "id" "parentid" root_parent
          (.ok (.tree t), cacheSet c (filter_tree_key src) (.tree t) (some (8 * 60 * 60)), ops)

/-- `JdbcSource.get_named_parameters(filter_id, ignore_cache)`: on a
cache hit return the cached value; otherwise query the parameters of
the filter, deduplicate, name the rows and cache them for 8 hours. -/
def JdbcSource.get_named_parameters (src : JdbcSource) (remote : Remote)
    (filter_id : String) (ignore_cache : Bool) (c : Cache) :
    Except LookupError CacheVal × Cache × List RemoteOp :=
  match cacheGet c (parameters_key src filter_id) with
  | some v => (.ok v, c, [])
  | Option.none =>
    let ops := (src.query remote (parameters_stmt filter_id)).2
    match (src.query remote (parameters_stmt filter_id)).1 with
    | .error e => (.error (.remote e), c, ops)
    | .ok parameter_result =>
      match named_list (unique_list parameter_result)
          ["name", "parameterid", "parameter"] with
      | .error e => (.error e, c, ops)
      | .ok named_parameters =>
        (.ok (.rows named_parameters),
         cacheSet c (parameters_key src filter_id) (.rows named_parameters)
           (some (8 * 60 * 60)),
         ops)

/-- `JdbcSource.get_parameter_name(parameter_id, ignore_cache)`: on a
cache hit return the cached value; otherwise query the name, take
`name_results[0][0]` (an empty result raises, modelled as `notFound`)
and cache it for 8 hours. -/
def JdbcSource.get_parameter_name (src : JdbcSource) (remote : Remote)
    (parameter_id : String) (ignore_cache : Bool) (c : Cache) :
    Except LookupError CacheVal × Cache × List RemoteOp :=
  match cacheGet c (parameter_name_key src parameter_id) with
  | some v => (.ok v, c, [])
  | Option.none =>
    let ops := (src.query remote (parameter_name_stmt parameter_id)).2
    match (src.query remote (parameter_name_stmt parameter_id)).1 with
    | .error e => (.error (.remote e), c, ops)
    | .ok name_results =>
      match name_results with
      | (v :: _) :: _ =>
        (.ok (.val v),
         cacheSet c (parameter_name_key src parameter_id) (.val v)
           (some (8 * 60 * 60)),
         ops)
      | _ => (.error .notFound, c, ops)

/-- `JdbcSource.get_locations(filter_id, parameter_id)`: on a cache hit
return the cached value; otherwise query the locations, name the rows
(no deduplication in the source) and cache them with no explicit
timeout.  The cache key does not include the source slug. -/
def JdbcSource.get_locations (src : JdbcSource) (remote : Remote)
    (filter_id parameter_id : String) (c : Cache) :
    Except LookupError CacheVal × Cache × List RemoteOp :=
  match cacheGet c (location_key filter_id parameter_id) with
  | some v => (.ok v, c, [])
  | Option.none =>
    let ops := (src.query remote (locations_stmt filter_id parameter_id)).2
    match (src.query remote (locations_stmt filter_id parameter_id)).1 with
    | .error e => (.error (.remote e), c, ops)
    | .ok locations =>
      match named_list locations ["longitude", "latitude", "location", "locationid"] with
      | .error e => (.error e, c, ops)
      | .ok named_locations =>
        (.ok (.rows named_locations),
         cacheSet c (location_key filter_id parameter_id) (.rows named_locations)
           Option.none,
         ops)

/-- The per-row timestamp fix of `get_timeseries`: take
`row['time'].value` (a compact string; a non-string cell is a
Python-level type error), re-assemble it with `adjust_date_time`, parse
it with `iso8601.parse_date` and store the parsed date-time back under
`time`. -/
def fix_time_row (row : NamedRow) : Except LookupError NamedRow :=
  match lookupVal row "time" with
  | .str s =>
    match parse_date (adjust_date_time s) with
    | .ok dt => .ok (setField row "time" (.date dt))
    | .error m => .error (.malformedTimestamp m)
  | _ => .error .typeError

/-- The row loop of `get_timeseries`: fix the timestamp of each row in
order, stopping at the first failure (the Python loop raises there). -/
def fix_rows : List NamedRow → Except LookupError (List NamedRow)
  | [] => .ok []
  | r :: rs =>
    match fix_time_row r with
    | .error e => .error e
    | .ok r2 =>
      match fix_rows rs with
      | .error e => .error e
      | .ok rest => .ok (r2 :: rest)

/-- `JdbcSource.get_timeseries(filter_id, location_id, parameter_id,
start_date, end_date)`: query the time-bounded select (both bounds
formatted with `JDBC_DATE_FORMAT`), name the rows and re-assemble each
row's timestamp.  Not cached. -/
def JdbcSource.get_timeseries (src : JdbcSource) (remote : Remote)
    (filter_id location_id parameter_id : String)
    (start_date end_date : DateTimeV) :
    Except LookupError CacheVal × List RemoteOp :=
  let q := timeseries_stmt filter_id location_id parameter_id start_date end_date
  let ops := (src.query remote q).2
  match (src.query remote q).1 with
  | .error e => (.error (.remote e), ops)
  | .ok query_result =>
    match named_list query_result ["time", "value", "flag", "detection", "comment"] with
    | .error e => (.error e, ops)
    | .ok rows =>
      match fix_rows rows with
      | .error e => (.error e, ops)
      | .ok fixed => (.ok (.rows fixed), ops)

/-- `JdbcSource.get_unit(parameter_id)`: query the unit and take
`query_result[0][0]` (an empty result raises, modelled as `notFound`).
Not cached. -/
def JdbcSource.get_unit (src : JdbcSource) (remote : Remote)
    (parameter_id : String) : Except LookupError CacheVal × List RemoteOp :=
  let ops := (src.query remote (unit_stmt parameter_id)).2
  match (src.query remote (unit_stmt parameter_id)).1 with
  | .error e => (.error (.remote e), ops)
  | .ok query_result =>
    match query_result with
    | (v :: _) :: _ => (.ok (.val v), ops)
    | _ => (.error .notFound, ops)

/-- A concrete source without a custom filter (for witnesses and
counterexamples). -/
def demoSource : JdbcSource :=
  { slug := "a", name := "A", jdbc_url := "u", jdbc_tag_name := "t",
    connector_string := "cs", filter_tree_root := Option.none,
    usecustomfilter := false, customfilter := [] }

/-- A second concrete source, differing from `demoSource` in its slug. -/
def demoSourceB : JdbcSource :=
  { slug := "b", name := "B", jdbc_url := "u2", jdbc_tag_name := "t2",
    connector_string := "cs2", filter_tree_root := Option.none,
    usecustomfilter := false, customfilter := [] }

/-- A concrete source with a custom filter (the example from the
`customfilter` help text). -/
def customSource : JdbcSource :=
  { slug := "cust", name := "C", jdbc_url := "u", jdbc_tag_name := "t",
    connector_string := "cs", filter_tree_root := Option.none,
    usecustomfilter := true,
    customfilter :=
      [[("id", .str "id"), ("name", .str "name"), ("parentid", Val.null)],
       [("id", .str "id2"), ("name", .str "name2"), ("parentid", .str "id")]] }

/-- A concrete stand-in for Django's `reverse`. -/
def demoRev : String → String → String :=
  fun url_name slug => "/" ++ url_name ++ "/" ++ slug

/-- A remote whose liveness ping fails with a `socket.gaierror`. -/
def downRemote : Remote :=
  { ping := .gaierror "down", configGet := fun _ => .ok (.str ""),
    execute := fun _ _ => .table [] }

/-- A live remote whose every `Query.execute` returns the integer
sentinel `-2`. -/
def remoteIntSentinel : Remote :=
  { ping := .alive, configGet := fun _ => .ok (.str "x"),
    execute := fun _ _ => .intResult (-2) }

/-- A live remote whose `Config.get` fails with an `ExpatError`. -/
def remoteParseFail : Remote :=
  { ping := .alive, configGet := fun _ => .parseError,
    execute := fun _ _ => .table [] }

/-- A live remote returning an empty tabular result. -/
def remoteEmptyTable : Remote :=
  { ping := .alive, configGet := fun _ => .ok (.str "x"),
    execute := fun _ _ => .table [] }

/-- A live remote returning one parameter row. -/
def remoteParams : Remote :=
  { ping := .alive, configGet := fun _ => .ok (.str "x"),
    execute := fun _ _ => .table [[.str "F", .str "P1", .str "Precipitation"]] }

/-- A live remote returning one location row (source `demoSource`). -/
def remoteLocA : Remote :=
  { ping := .alive, configGet := fun _ => .ok (.str "x"),
    execute := fun _ _ => .table [[.int 5, .int 52, .str "LocA", .str "L1"]] }

/-- A live remote returning a different location row (source
`demoSourceB`). -/
def remoteLocB : Remote :=
  { ping := .alive, configGet := fun _ => .ok (.str "x"),
    execute := fun _ _ => .table [[.int 6, .int 53, .str "LocB", .str "L2"]] }

/-- A live remote returning one time-series row whose `time` cell is
the `xmlrpclib.DateTime` compact value `20080115T13:00:00`. -/
def remoteTsCompact : Remote :=
  { ping := .alive, configGet := fun _ => .ok (.str "x"),
    execute := fun _ _ =>
      .table [[.str "20080115T13:00:00", .int 1, .null, .null, .null]] }

/-- A live remote returning one time-series row whose `time` cell is
the all-digit string `20080115130000`. -/
def remoteTsDigits : Remote :=
  { ping := .alive, configGet := fun _ => .ok (.str "x"),
    execute := fun _ _ =>
      .table [[.str "20080115130000", .int 1, .null, .null, .null]] }

/-! ### Helper lemmas -/

lemma cacheGet_cacheSet (c : Cache) (k : String) (v : CacheVal) (ttl : Option Nat) :
    cacheGet (cacheSet c k v ttl) k = some v := by
  simp [cacheGet, cacheSet, List.find?]

lemma query_ops_ne_nil (src : JdbcSource) (remote : Remote) (q : String) :
    (src.query remote q).2 ≠ [] := by
  unfold JdbcSource.query
  cases remote.ping with
  | gaierror m => simp
  | alive => cases remote.configGet src.jdbc_tag_name <;> simp

/-! ### Claim C2 -/

/-- Claim C2: for every statement, if the remote `Execute` call returns
an integer `n` instead of a tabular result, `query` fails with
`FewsJdbcQueryError` carrying exactly that code `n` and the offending
statement; otherwise `query` returns the tabular result unchanged.
(The hypotheses put the call on the path where `Query.execute` is
actually reached: the ping succeeded and `Config.get` did not blow up
with an uncaught network error.) -/
theorem query_classifies_integer_result (src : JdbcSource) (remote : Remote)
    (q : String) (hping : remote.ping = .alive)
    (hcfg : ∀ m, remote.configGet src.jdbc_tag_name ≠ .networkError m) :
    (src.query remote q).1 =
      match remote.execute q [src.jdbc_tag_name] with
      | .intResult n => .error (.queryError n q)
      | .table t => .ok t := by
  unfold JdbcSource.query
  rw [hping]
  cases hg : remote.configGet src.jdbc_tag_name with
  | ok v => rfl
  | parseError => rfl
  | networkError m => exact absurd hg (hcfg m)

/-- Witness for C2 at a remote whose `Execute` returns `-2`. -/
theorem query_classifies_integer_result_witness :
    (demoSource.query remoteIntSentinel "select x from y").1 =
      match remoteIntSentinel.execute "select x from y" [demoSource.jdbc_tag_name] with
      | .intResult n => .error (.queryError n "select x from y")
      | .table t => .ok t :=
  query_classifies_integer_result demoSource remoteIntSentinel "select x from y"
    rfl (fun m h => ConfigGetResult.noConfusion h)

/-! ### Claim C8 -/

/-- Claim C8: in every `query` call (whose ping succeeded), the
registration write `Config.put(tag, connector_string)` is performed
exactly when `Config.get(tag)` fails with a parse error (`ExpatError`)
— not when it succeeds and not when it fails with a network error —
and this write happens before the statement is executed, as the issue
order of the remote operations shows. -/
theorem query_registration_write_trace (src : JdbcSource) (remote : Remote)
    (q : String) (hping : remote.ping = .alive) :
    (src.query remote q).2 =
      [RemoteOp.ping, RemoteOp.configGet src.jdbc_tag_name] ++
        match remote.configGet src.jdbc_tag_name with
        | .ok _ => [RemoteOp.execute q [src.jdbc_tag_name]]
        | .parseError =>
          [RemoteOp.configPut src.jdbc_tag_name src.connector_string,
           RemoteOp.execute q [src.jdbc_tag_name]]
        | .networkError _ => [] := by
  unfold JdbcSource.query
  rw [hping]
  cases remote.configGet src.jdbc_tag_name <;> rfl

/-- Witness for C8 at a remote whose `Config.get` raises `ExpatError`:
the trace contains the registration write, before the execute. -/
theorem query_registration_write_trace_witness :
    (demoSource.query remoteParseFail "q").2 =
      [RemoteOp.ping, RemoteOp.configGet demoSource.jdbc_tag_name] ++
        match remoteParseFail.configGet demoSource.jdbc_tag_name with
        | .ok _ => [RemoteOp.execute "q" [demoSource.jdbc_tag_name]]
        | .parseError =>
          [RemoteOp.configPut demoSource.jdbc_tag_name demoSource.connector_string,
           RemoteOp.execute "q" [demoSource.jdbc_tag_name]]
        | .networkError _ => [] :=
  query_registration_write_trace demoSource remoteParseFail "q" rfl

/-! ### Claim C10 -/

/-- Claim C10: the `ignore_cache` flag accepted by `get_filter_tree`,
`get_named_parameters` and `get_parameter_name` has no effect: with
`ignore_cache = true` the result returned, the new cache state and the
queries issued are identical to those with `ignore_cache = false`. -/
theorem ignore_cache_flag_no_effect (src : JdbcSource) (remote : Remote)
    (rev : String → String → String) (url_name filter_id parameter_id : String)
    (c : Cache) :
    src.get_filter_tree remote rev url_name true c
      = src.get_filter_tree remote rev url_name false c
    ∧ src.get_named_parameters remote filter_id true c
      = src.get_named_parameters remote filter_id false c
    ∧ src.get_parameter_name remote parameter_id true c
      = src.get_parameter_name remote parameter_id false c :=
  ⟨rfl, rfl, rfl⟩

/-! ### Claim C3 -/

/-- Claim C3: for every source with a custom filter defined (and no
fresher cache entry), `get_filter_tree` never invokes the remote query
gateway — the issued remote-operation list is empty — the tree is
built from the custom filter records with root parent the none
sentinel (`Val.null`), and the resulting tree is still stored in the
cache (with the 8-hour timeout). -/
theorem get_filter_tree_customfilter_no_remote (src : JdbcSource)
    (remote : Remote) (rev : String → String → String) (url_name : String)
    (ignore_cache : Bool) (c : Cache)
    (hcustom : src.usecustomfilter = true)
    (hmiss : cacheGet c (filter_tree_key src) = Option.none) :
    src.get_filter_tree remote rev url_name ignore_cache c =
      (.ok (.tree (tree_from_list
          ((src.customfilter.map (set_url rev url_name src.slug)).length + 1)
          (src.customfilter.map (set_url rev url_name src.slug))
          "id" "parentid" Val.null)),
       cacheSet c (filter_tree_key src)
         (.tree (tree_from_list
           ((src.customfilter.map (set_url rev url_name src.slug)).length + 1)
           (src.customfilter.map (set_url rev url_name src.slug))
           "id" "parentid" Val.null))
         (some (8 * 60 * 60)),
       ([] : List RemoteOp)) := by
  unfold JdbcSource.get_filter_tree
  rw [hmiss, hcustom]
  rfl

/-- Witness for C3 at the concrete custom-filter source. -/
theorem get_filter_tree_customfilter_no_remote_witness :
    customSource.get_filter_tree downRemote demoRev "lizard_fewsjdbc.jdbc_source"
        false [] =
      (.ok (.tree (tree_from_list
          ((customSource.customfilter.map
            (set_url demoRev "lizard_fewsjdbc.jdbc_source" customSource.slug)).length + 1)
          (customSource.customfilter.map
            (set_url demoRev "lizard_fewsjdbc.jdbc_source" customSource.slug))
          "id" "parentid" Val.null)),
       cacheSet [] (filter_tree_key customSource)
         (.tree (tree_from_list
           ((customSource.customfilter.map
             (set_url demoRev "lizard_fewsjdbc.jdbc_source" customSource.slug)).length + 1)
           (customSource.customfilter.map
             (set_url demoRev "lizard_fewsjdbc.jdbc_source" customSource.slug))
           "id" "parentid" Val.null))
         (some (8 * 60 * 60)),
       ([] : List RemoteOp)) :=
  get_filter_tree_customfilter_no_remote customSource downRemote demoRev
    "lizard_fewsjdbc.jdbc_source" false [] rfl rfl

/-! ### Claim C5 -/

/-- Claim C5: for every source and filter id, when the cache already
holds the entry for `get_named_parameters`, a call returns the cached
value, leaves the cache unchanged and issues no remote operation;
consequently, after any call returning a value `v` and a cache `c2`, a
second call against `c2` (i.e. within the TTL window) returns the same
value and issues no remote operation — so two calls issue exactly the
remote traffic of the first. -/
theorem get_named_parameters_cache_hit_suppresses_query (src : JdbcSource)
    (remote : Remote) (filter_id : String) (ic : Bool) (c c2 : Cache)
    (v : CacheVal) (ops : List RemoteOp)
    (h : src.get_named_parameters remote filter_id ic c = (.ok v, c2, ops)) :
    (∀ v0, cacheGet c (parameters_key src filter_id) = some v0 →
      src.get_named_parameters remote filter_id ic c = (.ok v0, c, []))
    ∧ src.get_named_parameters remote filter_id ic c2 = (.ok v, c2, []) := by
  constructor
  · intro v0 h0
    unfold JdbcSource.get_named_parameters
    rw [h0]
  · cases hc : cacheGet c (parameters_key src filter_id) with
    | some v0 =>
      unfold JdbcSource.get_named_parameters at h
      simp only [hc, Prod.mk.injEq, Except.ok.injEq] at h
      obtain ⟨hv, hc2, _⟩ := h
      subst hv
      subst hc2
      unfold JdbcSource.get_named_parameters
      rw [hc]
    | none =>
      unfold JdbcSource.get_named_parameters at h
      cases hq : (src.query remote (parameters_stmt filter_id)).1 with
      | error e =>
        simp only [hc, hq, Prod.mk.injEq] at h
        exact Except.noConfusion h.1
      | ok parameter_result =>
        cases hn : named_list (unique_list parameter_result)
            ["name", "parameterid", "parameter"] with
        | error e =>
          simp only [hc, hq, hn, Prod.mk.injEq] at h
          exact Except.noConfusion h.1
        | ok named_parameters =>
          simp only [hc, hq, hn, Prod.mk.injEq, Except.ok.injEq] at h
          obtain ⟨hv, hc2, _⟩ := h
          subst hv
          subst hc2
          unfold JdbcSource.get_named_parameters
          rw [cacheGet_cacheSet]

/-- Witness for C5: a first call on an empty cache, then the second
call served from the cache with no remote operation. -/
theorem get_named_parameters_cache_hit_suppresses_query_witness :
    (∀ v0, cacheGet [] (parameters_key demoSource "F1") = some v0 →
      demoSource.get_named_parameters remoteParams "F1" false [] = (.ok v0, [], []))
    ∧ demoSource.get_named_parameters remoteParams "F1" false
        (cacheSet [] (parameters_key demoSource "F1")
          (.rows [[("name", .str "F"), ("parameterid", .str "P1"),
                   ("parameter", .str "Precipitation")]]) (some (8 * 60 * 60)))
      = (.ok (.rows [[("name", .str "F"), ("parameterid", .str "P1"),
                      ("parameter", .str "Precipitation")]]),
         cacheSet [] (parameters_key demoSource "F1")
           (.rows [[("name", .str "F"), ("parameterid", .str "P1"),
                    ("parameter", .str "Precipitation")]]) (some (8 * 60 * 60)),
         []) :=
  get_named_parameters_cache_hit_suppresses_query demoSource remoteParams "F1"
    false []
    (cacheSet [] (parameters_key demoSource "F1")
      (.rows [[("name", .str "F"), ("parameterid", .str "P1"),
               ("parameter", .str "Precipitation")]]) (some (8 * 60 * 60)))
    (.rows [[("name", .str "F"), ("parameterid", .str "P1"),
             ("parameter", .str "Precipitation")]])
    [.ping, .configGet "t", .execute (parameters_stmt "F1") ["t"]]
    rfl

/-! ### Claim C6 -/

/-- Claim C6: for every parameter id whose lookup query returns zero
rows, `get_parameter_name` fails with `notFound` (the `result[0][0]`
indexing failure, `NotFound` in the spec's taxonomy), and `get_unit`
likewise fails with `notFound` on an empty result; when at least one
(non-empty) row is returned, each takes the first row's first column. -/
theorem parameter_name_and_unit_first_column (src : JdbcSource)
    (remote : Remote) (parameter_id : String) (ic : Bool) (c : Cache)
    (rows1 rows2 : Table)
    (hmiss : cacheGet c (parameter_name_key src parameter_id) = Option.none)
    (hq1 : (src.query remote (parameter_name_stmt parameter_id)).1 = .ok rows1)
    (hq2 : (src.query remote (unit_stmt parameter_id)).1 = .ok rows2) :
    ((src.get_parameter_name remote parameter_id ic c).1 =
      match rows1 with
      | (v :: _) :: _ => .ok (.val v)
      | _ => .error .notFound)
    ∧ ((src.get_unit remote parameter_id).1 =
      match rows2 with
      | (v :: _) :: _ => .ok (.val v)
      | _ => .error .notFound) := by
  constructor
  · unfold JdbcSource.get_parameter_name
    simp only [hmiss, hq1]
    cases rows1 with
    | nil => rfl
    | cons r rest => cases r <;> rfl
  · unfold JdbcSource.get_unit
    simp only [hq2]
    cases rows2 with
    | nil => rfl
    | cons r rest => cases r <;> rfl

/-- Witness for C6 at a remote returning zero rows: both lookups fail
with `notFound`. -/
theorem parameter_name_and_unit_first_column_witness :
    ((demoSource.get_parameter_name remoteEmptyTable "P1" false []).1 =
      match ([] : Table) with
      | (v :: _) :: _ => .ok (.val v)
      | _ => .error .notFound)
    ∧ ((demoSource.get_unit remoteEmptyTable "P1").1 =
      match ([] : Table) with
      | (v :: _) :: _ => .ok (.val v)
      | _ => .error .notFound) :=
  parameter_name_and_unit_first_column demoSource remoteEmptyTable "P1" false []
    [] [] rfl rfl rfl

/-! ### Claim C1 -/

/-- Claim C1: for every source without a custom filter, if the remote
query for the filter tree fails with `FewsJdbcNotAvailableError`
(`RemoteUnavailable`) or `FewsJdbcQueryError` (`RemoteQueryError`),
`get_filter_tree` does not raise: it returns a single-node result
whose node carries a human-readable diagnostic name and the original
error (`degraded_node`); for every other lookup — `get_named_parameters`,
`get_parameter_name`, `get_locations`, `get_timeseries`, `get_unit` —
the remote error raised by its own query propagates unchanged to the
caller.  The cache-miss hypotheses put each cached lookup on the path
where its query is actually issued. -/
theorem filter_tree_degrades_other_lookups_propagate (src : JdbcSource)
    (remote : Remote) (rev : String → String → String)
    (url_name fid lid pid : String) (ic : Bool) (c : Cache)
    (sd ed : DateTimeV) (e1 e2 e3 e4 e5 e6 : QueryError)
    (hcustom : src.usecustomfilter = false)
    (hmiss1 : cacheGet c (filter_tree_key src) = Option.none)
    (hq1 : (src.query remote filters_stmt).1 = .error e1)
    (hdeg : (∃ m, e1 = .notAvailable m) ∨ ∃ n q, e1 = .queryError n q)
    (hmiss2 : cacheGet c (parameters_key src fid) = Option.none)
    (hq2 : (src.query remote (parameters_stmt fid)).1 = .error e2)
    (hmiss3 : cacheGet c (parameter_name_key src pid) = Option.none)
    (hq3 : (src.query remote (parameter_name_stmt pid)).1 = .error e3)
    (hmiss4 : cacheGet c (location_key fid pid) = Option.none)
    (hq4 : (src.query remote (locations_stmt fid pid)).1 = .error e4)
    (hq5 : (src.query remote (timeseries_stmt fid lid pid sd ed)).1 = .error e5)
    (hq6 : (src.query remote (unit_stmt pid)).1 = .error e6) :
    (src.get_filter_tree remote rev url_name ic c).1
      = .ok (.tree [degraded_node e1])
    ∧ (src.get_named_parameters remote fid ic c).1 = .error (.remote e2)
    ∧ (src.get_parameter_name remote pid ic c).1 = .error (.remote e3)
    ∧ (src.get_locations remote fid pid c).1 = .error (.remote e4)
    ∧ (src.get_timeseries remote fid lid pid sd ed).1 = .error (.remote e5)
    ∧ (src.get_unit remote pid).1 = .error (.remote e6) := by
  refine ⟨?_, ?_, ?_, ?_, ?_, ?_⟩
  · unfold JdbcSource.get_filter_tree
    rcases hdeg with ⟨m, rfl⟩ | ⟨n, q, rfl⟩ <;>
      simp only [hmiss1, hcustom, hq1] <;> rfl
  · unfold JdbcSource.get_named_parameters
    simp only [hmiss2, hq2]
  · unfold JdbcSource.get_parameter_name
    simp only [hmiss3, hq3]
  · unfold JdbcSource.get_locations
    simp only [hmiss4, hq4]
  · unfold JdbcSource.get_timeseries
    simp only [hq5]
  · unfold JdbcSource.get_unit
    simp only [hq6]

/-- Witness for C1 at a remote whose ping fails with `gaierror`. -/
theorem filter_tree_degrades_other_lookups_propagate_witness :
    (demoSource.get_filter_tree downRemote demoRev "n" false []).1
      = .ok (.tree [degraded_node (.notAvailable "down")])
    ∧ (demoSource.get_named_parameters downRemote "F1" false []).1
      = .error (.remote (.notAvailable "down"))
    ∧ (demoSource.get_parameter_name downRemote "P1" false []).1
      = .error (.remote (.notAvailable "down"))
    ∧ (demoSource.get_locations downRemote "F1" "P1" []).1
      = .error (.remote (.notAvailable "down"))
    ∧ (demoSource.get_timeseries downRemote "F1" "L1" "P1"
        ⟨2008, 1, 1, 0, 0, 0⟩ ⟨2008, 2, 1, 0, 0, 0⟩).1
      = .error (.remote (.notAvailable "down"))
    ∧ (demoSource.get_unit downRemote "P1").1
      = .error (.remote (.notAvailable "down")) :=
  filter_tree_degrades_other_lookups_propagate demoSource downRemote demoRev
    "n" "F1" "L1" "P1" false [] ⟨2008, 1, 1, 0, 0, 0⟩ ⟨2008, 2, 1, 0, 0, 0⟩
    (.notAvailable "down") (.notAvailable "down") (.notAvailable "down")
    (.notAvailable "down") (.notAvailable "down") (.notAvailable "down")
    rfl rfl rfl (Or.inl ⟨"down", rfl⟩) rfl rfl rfl rfl rfl rfl rfl rfl

/-! ### Claim C9 -/

/-- Claim C9: whenever `get_filter_tree` returns the degraded
single-node result (remote unavailable or remote query error), no
cache entry is written — the returned cache state is the one passed in
— so the next `get_filter_tree` call issues the remote query's
operations again instead of serving the degraded result from the
cache (and that re-issued operation list is non-empty). -/
theorem filter_tree_error_path_writes_no_cache (src : JdbcSource)
    (remote : Remote) (rev : String → String → String) (url_name : String)
    (ic : Bool) (c : Cache) (e : QueryError)
    (hcustom : src.usecustomfilter = false)
    (hmiss : cacheGet c (filter_tree_key src) = Option.none)
    (hq : (src.query remote filters_stmt).1 = .error e)
    (hdeg : (∃ m, e = .notAvailable m) ∨ ∃ n q, e = .queryError n q) :
    (src.get_filter_tree remote rev url_name ic c).2.1 = c
    ∧ (src.get_filter_tree remote rev url_name ic
        ((src.get_filter_tree remote rev url_name ic c).2.1)).2.2
      = (src.query remote filters_stmt).2
    ∧ (src.query remote filters_stmt).2 ≠ [] := by
  have hfull : src.get_filter_tree remote rev url_name ic c
      = (.ok (.tree [degraded_node e]), c, (src.query remote filters_stmt).2) := by
    unfold JdbcSource.get_filter_tree
    rcases hdeg with ⟨m, rfl⟩ | ⟨n, q, rfl⟩ <;>
      simp only [hmiss, hcustom, hq] <;> rfl
  refine ⟨by rw [hfull], ?_, query_ops_ne_nil src remote filters_stmt⟩
  rw [hfull]
  rw [hfull]

/-- Witness for C9 at a remote whose ping fails with `gaierror`. -/
theorem filter_tree_error_path_writes_no_cache_witness :
    (demoSource.get_filter_tree downRemote demoRev "n" false []).2.1 = []
    ∧ (demoSource.get_filter_tree downRemote demoRev "n" false
        ((demoSource.get_filter_tree downRemote demoRev "n" false []).2.1)).2.2
      = (demoSource.query downRemote filters_stmt).2
    ∧ (demoSource.query downRemote filters_stmt).2 ≠ [] :=
  filter_tree_error_path_writes_no_cache demoSource downRemote demoRev "n"
    false [] (.notAvailable "down") rfl rfl rfl (Or.inl ⟨"down", rfl⟩)

/-! ### Claim C4 -/

/-- Counterexample to C4's concrete example: on a remote whose
time-series row carries the all-digit compact string `20080115130000`,
`get_timeseries` does not produce 2008-01-15 13:00:00.  The code
re-assembles the string into `2008-01-15130000`, whose day-and-time
tail `15130000` has no parseable time part (an ISO 8601 time after the
day needs a separator and colons), so the call fails with
`malformedTimestamp` instead of returning the row. -/
theorem get_timeseries_compact_digits_not_parsed :
    ((demoSource.get_timeseries remoteTsDigits "F" "L" "P"
        ⟨2008, 1, 1, 0, 0, 0⟩ ⟨2008, 2, 1, 0, 0, 0⟩).1
      = .error (.malformedTimestamp "2008-01-15130000"))
    ∧ ((demoSource.get_timeseries remoteTsDigits "F" "L" "P"
        ⟨2008, 1, 1, 0, 0, 0⟩ ⟨2008, 2, 1, 0, 0, 0⟩).1
      ≠ .ok (.rows [[("time", .date ⟨2008, 1, 15, 13, 0, 0⟩), ("value", .int 1),
                     ("flag", .null), ("detection", .null), ("comment", .null)]])) := by
  refine ⟨rfl, fun h => ?_⟩
  exact Except.noConfusion
    (show Except.error (LookupError.malformedTimestamp "2008-01-15130000")
        = Except.ok (CacheVal.rows
            [[("time", .date ⟨2008, 1, 15, 13, 0, 0⟩), ("value", .int 1),
              ("flag", .null), ("detection", .null), ("comment", .null)]])
      from h)

/-- Claim C4 as amended: for every time-series row returned by the
remote, `get_timeseries` re-assembles the timestamp by taking the
first 4 characters as the year, the next 2 as the month, and the
remainder as the day-and-time tail (`adjust_date_time`), then parses
the result as a calendar date-time; a tail that does not parse fails
with `malformedTimestamp`.  The remote's compact representation of
2008-01-15 13:00:00 is the `xmlrpclib.DateTime` value
`20080115T13:00:00`, and that string parses to 2008-01-15 13:00:00
(the all-digit string `20080115130000` of the original claim does not
parse — see the counterexample). -/
theorem get_timeseries_time_reassembly (src : JdbcSource) (remote : Remote)
    (fid lid pid : String) (sd ed : DateTimeV) (s : String) (v f d cm : Val)
    (hq : (src.query remote (timeseries_stmt fid lid pid sd ed)).1
        = .ok [[.str s, v, f, d, cm]]) :
    ((src.get_timeseries remote fid lid pid sd ed).1 =
      match parse_date (adjust_date_time s) with
      | .ok dt => .ok (.rows [[("time", .date dt), ("value", v), ("flag", f),
                               ("detection", d), ("comment", cm)]])
      | .error m => .error (.malformedTimestamp m))
    ∧ parse_date (adjust_date_time "20080115T13:00:00")
        = .ok ⟨2008, 1, 15, 13, 0, 0⟩ := by
  refine ⟨?_, rfl⟩
  unfold JdbcSource.get_timeseries
  cases hp : parse_date (adjust_date_time s) with
  | ok dt => simp [hq, hp, named_list, fix_rows, fix_time_row, lookupVal, setField]
  | error m => simp [hq, hp, named_list, fix_rows, fix_time_row, lookupVal, setField]

/-- Witness for the amended C4 at a remote returning the compact
`xmlrpclib.DateTime` value `20080115T13:00:00`. -/
theorem get_timeseries_time_reassembly_witness :
    ((demoSource.get_timeseries remoteTsCompact "F" "L" "P"
        ⟨2008, 1, 1, 0, 0, 0⟩ ⟨2008, 2, 1, 0, 0, 0⟩).1 =
      match parse_date (adjust_date_time "20080115T13:00:00") with
      | .ok dt => .ok (.rows [[("time", .date dt), ("value", .int 1),
                               ("flag", .null), ("detection", .null),
                               ("comment", .null)]])
      | .error m => .error (.malformedTimestamp m))
    ∧ parse_date (adjust_date_time "20080115T13:00:00")
        = .ok ⟨2008, 1, 15, 13, 0, 0⟩ :=
  get_timeseries_time_reassembly demoSource remoteTsCompact "F" "L" "P"
    ⟨2008, 1, 1, 0, 0, 0⟩ ⟨2008, 2, 1, 0, 0, 0⟩ "20080115T13:00:00"
    (.int 1) .null .null .null rfl

/-! ### Claim C7 -/

/-- Two colon-free lists followed by the `::` separator and arbitrary
tails concatenate to equal lists only componentwise. -/
lemma sep_append_inj (a : List Char) : ∀ b c d : List Char, ':' ∉ a → ':' ∉ b →
    a ++ ':' :: ':' :: c = b ++ ':' :: ':' :: d → a = b ∧ c = d := by
  induction a with
  | nil =>
    intro b c d _ hb h
    cases b with
    | nil => exact ⟨rfl, by simpa using h⟩
    | cons y ys =>
      exfalso
      rw [List.nil_append, List.cons_append] at h
      injection h with h1 h2
      subst h1
      exact hb (List.mem_cons_self _ _)
  | cons x xs ih =>
    intro b c d ha hb h
    cases b with
    | nil =>
      exfalso
      rw [List.nil_append, List.cons_append] at h
      injection h with h1 h2
      subst h1
      exact ha (List.mem_cons_self _ _)
    | cons y ys =>
      rw [List.cons_append, List.cons_append] at h
      injection h with h1 h2
      subst h1
      obtain ⟨hab, hcd⟩ := ih ys c d
        (fun hm => ha (List.mem_cons_of_mem _ hm))
        (fun hm => hb (List.mem_cons_of_mem _ hm)) h2
      exact ⟨by rw [hab], hcd⟩

/-- A `namespace::component` key determines its final component. -/
lemma two_part_key_inj (ns a1 a2 : String) :
    ns ++ "::" ++ a1 = ns ++ "::" ++ a2 ↔ a1 = a2 := by
  constructor
  · intro h
    have hd := congrArg String.data h
    simp only [String.data_append, List.append_assoc] at hd
    exact String.ext (List.append_cancel_left (List.append_cancel_left hd))
  · intro h
    rw [h]

/-- A `namespace::a::b` key with a colon-free first component
determines both components. -/
lemma three_part_key_inj (ns a1 b1 a2 b2 : String)
    (h1 : ':' ∉ a1.data) (h2 : ':' ∉ a2.data) :
    ns ++ "::" ++ a1 ++ "::" ++ b1 = ns ++ "::" ++ a2 ++ "::" ++ b2
      ↔ a1 = a2 ∧ b1 = b2 := by
  constructor
  · intro h
    have hd := congrArg String.data h
    simp only [String.data_append, List.append_assoc] at hd
    have hd2 := List.append_cancel_left (List.append_cancel_left hd)
    simp only [show ("::" : String).data = [':', ':'] from rfl,
      List.cons_append, List.nil_append] at hd2
    obtain ⟨ha, hb⟩ := sep_append_inj _ _ _ _ h1 h2 hd2
    exact ⟨String.ext ha, String.ext hb⟩
  · rintro ⟨ha, hb⟩
    rw [ha, hb]

/-- Counterexample to C7: `get_locations` calls on two distinct
sources (slugs `a` and `b`) with the same `filter_id` and
`parameter_id` do not use distinct cache keys.  Concretely: after
`demoSource` populates the cache from `remoteLocA`, the call for
`demoSourceB` — whose own remote would return a different row — is
served `demoSource`'s cached locations and issues no remote operation,
because `location_key` is built from the namespace, `filter_id` and
`parameter_id` only, without the source slug. -/
theorem get_locations_cache_key_collision :
    demoSource.slug ≠ demoSourceB.slug
    ∧ demoSourceB.get_locations remoteLocB "F1" "P1"
        ((demoSource.get_locations remoteLocA "F1" "P1" []).2.1)
      = (.ok (.rows [[("longitude", .int 5), ("latitude", .int 52),
                      ("location", .str "LocA"), ("locationid", .str "L1")]]),
         (demoSource.get_locations remoteLocA "F1" "P1" []).2.1, []) :=
  ⟨by decide, rfl⟩

/-- Claim C7 as amended: the cache keys of `get_filter_tree`,
`get_named_parameters` and `get_parameter_name` are deterministic
strings composed from a namespace, the source slug and the lookup
parameters, and (for colon-free slugs) two such lookups differing in
source or in a lookup parameter never compute the same key; but the
`get_locations` key omits the source slug — it is composed from the
namespace, `filter_id` and `parameter_id` only — so `get_locations`
calls on two distinct sources with the same `filter_id` and
`parameter_id` use the same key: whatever value one source cached
under it is returned, without remote traffic, to the other. -/
theorem cache_keys_include_slug_except_locations (s1 s2 : JdbcSource)
    (f1 f2 p1 p2 : String)
    (h1 : ':' ∉ s1.slug.data) (h2 : ':' ∉ s2.slug.data) :
    (filter_tree_key s1 = filter_tree_key s2 ↔ s1.slug = s2.slug)
    ∧ (parameters_key s1 f1 = parameters_key s2 f2
        ↔ s1.slug = s2.slug ∧ f1 = f2)
    ∧ (parameter_name_key s1 p1 = parameter_name_key s2 p2
        ↔ s1.slug = s2.slug ∧ p1 = p2)
    ∧ (∀ (remote : Remote) (c : Cache) (v : CacheVal),
        cacheGet c (location_key f1 p1) = some v →
          s1.get_locations remote f1 p1 c = (.ok v, c, [])
          ∧ s2.get_locations remote f1 p1 c = (.ok v, c, [])) := by
  refine ⟨two_part_key_inj FILTER_CACHE_KEY s1.slug s2.slug,
    three_part_key_inj FILTER_CACHE_KEY s1.slug f1 s2.slug f2 h1 h2,
    three_part_key_inj PARAMETER_NAME_CACHE_KEY s1.slug p1 s2.slug p2 h1 h2,
    ?_⟩
  intro remote c v hv
  constructor <;> (unfold JdbcSource.get_locations; rw [hv])

/-- Witness for the amended C7 at the two concrete sources. -/
theorem cache_keys_include_slug_except_locations_witness :
    (filter_tree_key demoSource = filter_tree_key demoSourceB
      ↔ demoSource.slug = demoSourceB.slug)
    ∧ (parameters_key demoSource "F1" = parameters_key demoSourceB "F2"
        ↔ demoSource.slug = demoSourceB.slug ∧ "F1" = "F2")
    ∧ (parameter_name_key demoSource "P1" = parameter_name_key demoSourceB "P2"
        ↔ demoSource.slug = demoSourceB.slug ∧ "P1" = "P2")
    ∧ (∀ (remote : Remote) (c : Cache) (v : CacheVal),
        cacheGet c (location_key "F1" "P1") = some v →
          demoSource.get_locations remote "F1" "P1" c = (.ok v, c, [])
          ∧ demoSourceB.get_locations remote "F1" "P1" c = (.ok v, c, [])) :=
  cache_keys_include_slug_except_locations demoSource demoSourceB "F1" "F2"
    "P1" "P2" (by decide) (by decide)
